import Mathlib

/-! Overview.
Verification development for the in-memory object/query engine of the
SQLAlchemy repository under study.  The definitions below are shallow
embeddings of:

  * `lib/sqlalchemy/attributes.py` (2005-era): `PropHistory`, `CallableProp`
    and the scalar paths of `AttributeManager`;
  * `lib/sqlalchemy/orm/evaluator.py`: `EvaluatorCompiler` and its compiled
    in-memory evaluators;
  * `lib/sqlalchemy/orm/query.py`: the generative builder methods, `one()`
    and `update()`;
  * `lib/sqlalchemy/orm/strategies.py`: the grouped deferred-column loader.

Python values are modelled by `PyVal`; a Python object's `__dict__` by an
association list; mutable dictionaries and sets shared between `Query`
clones by references into an explicit heap.
-/

set_option maxRecDepth 2000

/-- Model of the Python values handled by the code under study.  The payload
of a list is simplified to atoms: the source only ever tests list-ness
(`isinstance(value, list)`) and never inspects list contents on the scalar
paths modelled here. -/
inductive PyVal where
  | none
  | bool (b : Bool)
  | int (n : Int)
  | str (s : String)
  | list (elems : List Int)
deriving Repr, DecidableEq

/-- Python truthiness (`if value:`) for the modelled values. -/
def PyVal.truthy : PyVal → Bool
  | .none => false
  | .bool b => b
  | .int n => n != 0
  | .str s => s != ""
  | .list l => l != []

/-- The `isinstance(value, list)` test of `PropHistory.setattr`. -/
def PyVal.isList : PyVal → Bool
  | .list _ => true
  | _ => false

/-- Association-list model of a Python dict (`obj.__dict__`, parameter
dicts, `_attributes`). -/
abbrev ObjDict := List (String × PyVal)

/-- Write a key into an association list, replacing an existing entry in
place or appending a fresh one (Python `d[k] = v`). -/
def assocSet {α : Type} (d : List (String × α)) (k : String) (v : α) : List (String × α) :=
  match d with
  | [] => [(k, v)]
  | (k0, v0) :: rest => if k0 = k then (k, v) :: rest else (k0, v0) :: assocSet rest k v

/-- Python `d.update(kw)`: fold the pairs of `kw` into `d` left to right. -/
def dictUpdate (d kw : ObjDict) : ObjDict :=
  kw.foldl (fun acc p => assocSet acc p.1 p.2) d

/-- Python `obj.__dict__.get(key, None)`. -/
def dictGetNone (d : ObjDict) (k : String) : PyVal :=
  (d.lookup k).getD PyVal.none

/-! Section: PropHistory (attributes.py lines 50-94)

`PropHistory` manages one scalar attribute of one instance.  Its state is
the instance dict slot for the key (`dictVal`, with `Option.none` standing
for "key absent from `__dict__`") and `orig`, where `Option.none` plays the
role of the `PropHistory.NONE` sentinel and `some v` a captured previous
value (`v` may itself be the Python `None`, i.e. `PyVal.none`).  -/

structure PropHistory where
  dictVal : Option PyVal
  orig : Option PyVal
deriving Repr, DecidableEq

/-- Source lines 66-70.  `setattr` rejects list values, then UNCONDITIONALLY
captures `self.obj.__dict__.get(self.key, None)` into `orig` — there is no
`if self.orig is NONE` guard in this code — and stores the new value. -/
def PropHistory.setattr (h : PropHistory) (value : PyVal) : Except String PropHistory :=
  if value.isList then
    .error ("assigning a list to scalar property")
  else
    .ok { dictVal := some value, orig := some (h.dictVal.getD PyVal.none) }

/-- Source lines 71-73: `delattr` captures the previous value and stores
Python `None`. -/
def PropHistory.delattr (h : PropHistory) : PropHistory :=
  { dictVal := some PyVal.none, orig := some (h.dictVal.getD PyVal.none) }

/-- Source lines 74-77: restore the dict value from `orig` and reset the
sentinel; no-op when `orig` is the NONE sentinel. -/
def PropHistory.rollback (h : PropHistory) : PropHistory :=
  match h.orig with
  | some v => { dictVal := some v, orig := Option.none }
  | Option.none => h

/-- Source lines 78-79: accept the current value as the new baseline. -/
def PropHistory.commit (h : PropHistory) : PropHistory :=
  { h with orig := Option.none }

/-- Source lines 64-65: `getattr` returns `self.obj.__dict__[self.key]`,
raising `KeyError` when the key is absent. -/
def PropHistory.getattr (h : PropHistory) : Except String PyVal :=
  match h.dictVal with
  | some v => .ok v
  | Option.none => .error ("KeyError")

/-! Section: CallableProp and the scalar read path (attributes.py lines 137-203)

The per-(instance, attribute) side-table entry is either a `CallableProp`
(a lazy slot holding a zero-argument callable, modelled by the value it
returns) or a `PropHistory` (whose dict slot lives in `AttrState.dictVal`).
-/

inductive Entry where
  | callable (result : PyVal)
  | hist (orig : Option PyVal)
deriving Repr, DecidableEq

structure AttrState where
  dictVal : Option PyVal
  entry : Option Entry
deriving Repr, DecidableEq

/-- The scalar read path `AttributeManager.get_attribute` (lines 195-203):
`get_history(obj, key).getattr()`.  For a `CallableProp` entry,
`gethistory` runs `CallableProp.getattr` (lines 167-175): the callable is
invoked only when `obj.__dict__.get(key, None) is None`, its result is
installed into the instance dict, a fresh `PropHistory` (orig = NONE)
replaces the `CallableProp` in the side-table and the slot is detached.
For a missing entry, `get_history` creates a fresh `PropHistory`.  The
returned triple is (result, new state, number of callable invocations). -/
def getAttribute (s : AttrState) : Except String PyVal × AttrState × Nat :=
  match s.entry with
  | some (Entry.callable r) =>
      let (dv, fetches) :=
        if s.dictVal.getD PyVal.none = PyVal.none then (some r, 1) else (s.dictVal, 0)
      let s2 : AttrState := { dictVal := dv, entry := some (Entry.hist Option.none) }
      match dv with
      | some v => (.ok v, s2, fetches)
      | Option.none => (.error ("AttributeError"), s2, fetches)
  | some (Entry.hist _) =>
      match s.dictVal with
      | some v => (.ok v, s, 0)
      | Option.none => (.error ("AttributeError"), s, 0)
  | Option.none =>
      let s2 : AttrState := { dictVal := s.dictVal, entry := some (Entry.hist Option.none) }
      match s.dictVal with
      | some v => (.ok v, s2, 0)
      | Option.none => (.error ("AttributeError"), s2, 0)

/-! Section: EvaluatorCompiler (orm/evaluator.py)

Expression nodes carry a `__visit_name__`; `process` dispatches on it and
either returns a compiled evaluator (a function from an object to a Python
value) or raises.  An object is modelled as its attribute lookup function.
-/

inductive Operator where
  | add | mul | sub | div | mod | truediv | lt | le | ne | gt | ge | eq
  | is_ | isnot | and_ | or_ | inv
  | like_op | in_op | between_op | concat_op
deriving Repr, DecidableEq

/-- The `_straight_ops` whitelist (evaluator.py lines 9-11). -/
def straightOps : List Operator :=
  [.add, .mul, .sub, .div, .mod, .truediv, .lt, .le, .ne, .gt, .ge, .eq]

/-- Expression AST covering the clause kinds the evaluator dispatches on;
`unsupported` stands for any clause whose `__visit_name__` has no
`visit_` method. -/
inductive Clause where
  | grouping (element : Clause)
  | nullclause
  | column (key : String)
  | clauselist (op : Operator) (clauses : List Clause)
  | binary (left : Clause) (op : Operator) (right : Clause)
  | unary (op : Operator) (element : Clause)
  | bindparam (value : PyVal)
  | unsupported (name : String)
deriving Repr

abbrev Obj := String → PyVal

/-- Errors raised while compiling a clause: `UnevaluatableError`, or a
`NameError` from evaluating a reference to an unbound Python name. -/
inductive EvalErr where
  | unevaluatable (msg : String)
  | nameError (msg : String)
deriving Repr, DecidableEq

/-- Binary `operator(left, right)` application for the straight ops
(evaluator.py line 80).  Comparisons yield Python bools; arithmetic on
ints yields ints; dynamic combinations outside the claims' reach are not
modelled and collapse to Python `None`. -/
def applyOp (op : Operator) (a b : PyVal) : PyVal :=
  match op, a, b with
  | .add, .int x, .int y => .int (x + y)
  | .mul, .int x, .int y => .int (x * y)
  | .sub, .int x, .int y => .int (x - y)
  | .div, .int x, .int y => .int (x / y)
  | .mod, .int x, .int y => .int (x % y)
  | .truediv, .int x, .int y => .int (x / y)
  | .lt, .int x, .int y => .bool (decide (x < y))
  | .le, .int x, .int y => .bool (decide (x ≤ y))
  | .gt, .int x, .int y => .bool (decide (y < x))
  | .ge, .int x, .int y => .bool (decide (y ≤ x))
  | .eq, x, y => .bool (decide (x = y))
  | .ne, x, y => .bool (decide (x ≠ y))
  | _, _, _ => PyVal.none

/-- The `or_` branch of `visit_clauselist` (lines 42-52): return True on the
first truthy operand; after scanning all, None if any operand was None,
else False. -/
def evaluateOr (evaluators : List (Obj → PyVal)) (obj : Obj) : PyVal :=
  go evaluators false
where
  go : List (Obj → PyVal) → Bool → PyVal
    | [], hasNull => if hasNull then PyVal.none else PyVal.bool false
    | e :: rest, hasNull =>
        let value := e obj
        if value.truthy then PyVal.bool true
        else go rest (hasNull || decide (value = PyVal.none))

/-- The `and_` branch of `visit_clauselist` (lines 53-61): on the first
falsy operand return None if that operand is None else False, without
evaluating the remaining operands; True when every operand is truthy. -/
def evaluateAnd (evaluators : List (Obj → PyVal)) (obj : Obj) : PyVal :=
  match evaluators with
  | [] => PyVal.bool true
  | e :: rest =>
      let value := e obj
      if value.truthy then evaluateAnd rest obj
      else if value = PyVal.none then PyVal.none
      else PyVal.bool false

mutual

/-- `EvaluatorCompiler.process` (evaluator.py lines 20-24) together with the
`visit_` methods it dispatches to.  Notes kept from the source:

* `visit_clauselist` compiles every operand eagerly (`map(self.process,
  clause.clauses)`); when the list operator is neither `or_` nor `and_`
  the local `evaluate` is never assigned and returning it raises a
  `NameError`.
* In `visit_binary` the `is_` test is a bare `if` statement, not part of
  the `if isnot / elif straight-op / else raise` chain that follows it;
  the evaluator it defines is therefore dead and an `is_` binary always
  reaches the final `else: raise UnevaluatableError`.
* The straight-op evaluator returns None when either operand evaluates to
  None, else applies the operator (re-invoking the operand evaluators, as
  the source does on line 80). -/
def process : Clause → Except EvalErr (Obj → PyVal)
  | .grouping element => process element
  | .nullclause => .ok (fun _ => PyVal.none)
  | .column key => .ok (fun obj => obj key)
  | .clauselist op clauses => do
      let evaluators ← processList clauses
      if op = .or_ then
        .ok (evaluateOr evaluators)
      else if op = .and_ then
        .ok (evaluateAnd evaluators)
      else
        .error (.nameError ("evaluate"))
  | .binary left op right => do
      let eval_left ← process left
      let eval_right ← process right
      if op = .isnot then
        .ok (fun obj => PyVal.bool (decide (eval_left obj ≠ eval_right obj)))
      else if op ∈ straightOps then
        .ok (fun obj =>
          let left_val := eval_left obj
          let right_val := eval_right obj
          if left_val = PyVal.none ∨ right_val = PyVal.none then PyVal.none
          else applyOp op (eval_left obj) (eval_right obj))
      else
        .error (.unevaluatable ("Cannot evaluate BinaryExpression"))
  | .unary op element => do
      let eval_inner ← process element
      if op = .inv then
        .ok (fun obj =>
          let value := eval_inner obj
          if value = PyVal.none then PyVal.none
          else PyVal.bool (!value.truthy))
      else
        .error (.unevaluatable ("Cannot evaluate UnaryExpression"))
  | .bindparam value => .ok (fun _ => value)
  | .unsupported name => .error (.unevaluatable ("Cannot evaluate " ++ name))

/-- Eager compilation of a clause list (`map(self.process, clause.clauses)`
in `visit_clauselist`): the first compile error aborts the whole map. -/
def processList : List Clause → Except EvalErr (List (Obj → PyVal))
  | [] => .ok []
  | c :: rest => do
      let e ← process c
      let es ← processList rest
      .ok (e :: es)

end

/-! Section: Query (orm/query.py)

A `Query` value models the builder state `__init__` establishes (lines
61-92), restricted to the fields the claims touch.  Python objects that are
mutated in place and shared between clones — the `_params` and
`_attributes` and `_polymorphic_adapters` dicts, and the `__currenttables`
set — are modelled by references into an explicit heap, so that `_clone`'s
shallow `__dict__.copy()` (lines 300-303) shares them and the
copy-before-write discipline of the builder methods becomes visible. -/

structure Heap where
  dicts : List ObjDict
  tsets : List (List Nat)
deriving Repr

def Heap.dictAt (h : Heap) (r : Nat) : ObjDict := (h.dicts.get? r).getD []

def Heap.tsetAt (h : Heap) (r : Nat) : List Nat := (h.tsets.get? r).getD []

/-- Overwrite the dict object at reference `r` (in-place mutation of a
shared Python dict). -/
def Heap.writeDict (h : Heap) (r : Nat) (d : ObjDict) : Heap :=
  { h with dicts := h.dicts.set r d }

structure Query where
  criterion : Option Clause
  orderBy : Option (List Clause)
  groupBy : Option (List Clause)
  having : Option Clause
  limit : Option Nat
  offset : Option Nat
  distinct : Bool
  statement : Option Clause
  lockmode : Option String
  fromObj : Option Clause
  joinpoint : Option Nat
  withOptions : List String
  filterAliases : Option Nat
  paramsRef : Nat
  attributesRef : Nat
  polyAdaptersRef : Nat
  currenttablesRef : Nat
deriving Repr

/-- `Query._clone` (lines 300-303): a new object whose `__dict__` is a
shallow copy — every field value, including the references to the shared
mutable dicts and sets, is carried over unchanged. -/
def Query.clone (q : Query) : Query := q

inductive Err where
  | invalidRequest (msg : String)
  | argumentErr (msg : String)
deriving Repr, DecidableEq

/-- `__no_statement_condition` (lines 272-276). -/
def noStatementCondition (q : Query) : Except Err Unit :=
  if q.statement.isSome then
    .error (.invalidRequest ("existing full statement - cannot apply criterion"))
  else
    .ok ()

/-- `__no_limit_offset` (lines 278-283). -/
def noLimitOffset (q : Query) : Except Err Unit :=
  if q.limit.isSome || q.offset.isSome then
    .error (.invalidRequest ("already has LIMIT or OFFSET applied"))
  else
    .ok ()

/-- `__no_criterion_condition` (lines 260-266): raise if any criterion is
already present, then reset the statement/criterion/from and the
order/group/distinct flags. -/
def noCriterionCondition (q : Query) : Except Err Query :=
  if q.criterion.isSome || q.statement.isSome || q.fromObj.isSome ||
     q.limit.isSome || q.offset.isSome || q.groupBy.isSome || q.orderBy.isSome then
    .error (.invalidRequest ("called on a Query with existing criterion"))
  else
    .ok { q with statement := Option.none, criterion := Option.none,
                 fromObj := Option.none, orderBy := Option.none,
                 groupBy := Option.none, distinct := false }

/-- `Query.filter` (lines 624-642), wrapped by
`_generative(__no_statement_condition, __no_limit_offset)` (lines 38-56):
clone, run the assertions on the clone, then AND the new criterion onto
the clone's.  `_adapt_clause` is the identity in the unaliased case
modelled here. -/
def Query.filter (h : Heap) (q : Query) (criterion : Clause) : Except Err (Heap × Query) :=
  let q := q.clone
  match noStatementCondition q with
  | .error e => .error e
  | .ok _ =>
  match noLimitOffset q with
  | .error e => .error e
  | .ok _ =>
  match q.criterion with
  | some c0 => .ok (h, { q with criterion := some (Clause.clauselist .and_ [c0, criterion]) })
  | Option.none => .ok (h, { q with criterion := some criterion })

/-- `Query.order_by` (lines 673-683): first call sets the list (the field
starts as `False`, modelled `Option.none`), later calls concatenate. -/
def Query.order_by (h : Heap) (q : Query) (criterion : List Clause) : Except Err (Heap × Query) :=
  let q := q.clone
  match noStatementCondition q with
  | .error e => .error e
  | .ok _ =>
  match noLimitOffset q with
  | .error e => .error e
  | .ok _ =>
  match q.orderBy with
  | Option.none => .ok (h, { q with orderBy := some criterion })
  | some existing => .ok (h, { q with orderBy := some (existing ++ criterion) })

/-- `Query.group_by` (lines 685-695), same shape as `order_by`. -/
def Query.group_by (h : Heap) (q : Query) (criterion : List Clause) : Except Err (Heap × Query) :=
  let q := q.clone
  match noStatementCondition q with
  | .error e => .error e
  | .ok _ =>
  match noLimitOffset q with
  | .error e => .error e
  | .ok _ =>
  match q.groupBy with
  | Option.none => .ok (h, { q with groupBy := some criterion })
  | some existing => .ok (h, { q with groupBy := some (existing ++ criterion) })

/-- `Query.having` (lines 697-712): AND onto the existing HAVING. -/
def Query.having_ (h : Heap) (q : Query) (criterion : Clause) : Except Err (Heap × Query) :=
  let q := q.clone
  match noStatementCondition q with
  | .error e => .error e
  | .ok _ =>
  match noLimitOffset q with
  | .error e => .error e
  | .ok _ =>
  match q.having with
  | some c0 => .ok (h, { q with having := some (Clause.clauselist .and_ [c0, criterion]) })
  | Option.none => .ok (h, { q with having := some criterion })

/-- `Query.limit` (lines 979-987). -/
def Query.limit_ (h : Heap) (q : Query) (limit : Nat) : Except Err (Heap × Query) :=
  let q := q.clone
  match noStatementCondition q with
  | .error e => .error e
  | .ok _ => .ok (h, { q with limit := some limit })

/-- `Query.offset` (lines 989-996). -/
def Query.offset_ (h : Heap) (q : Query) (offset : Nat) : Except Err (Heap × Query) :=
  let q := q.clone
  match noStatementCondition q with
  | .error e => .error e
  | .ok _ => .ok (h, { q with offset := some offset })

/-- `Query.distinct` (lines 998-1004). -/
def Query.distinct_ (h : Heap) (q : Query) : Except Err (Heap × Query) :=
  let q := q.clone
  match noStatementCondition q with
  | .error e => .error e
  | .ok _ => .ok (h, { q with distinct := true })

/-- `Query.params` (lines 607-622), `_generative()`: the clone rebinds
`self._params` to a fresh copy of the shared dict and updates the copy in
place; the original keeps its reference to the untouched dict. -/
def Query.params (h : Heap) (q : Query) (kwargs : ObjDict) : Except Err (Heap × Query) :=
  let q := q.clone
  let updated := dictUpdate (h.dictAt q.paramsRef) kwargs
  .ok ({ h with dicts := h.dicts ++ [updated] }, { q with paramsRef := h.dicts.length })

/-- `Query.options` → `__options` (lines 577-599): the clone copies the
shared `_attributes` dict ("most MapperOptions write to the '_attributes'
dictionary, so copy that as well"), extends `_with_options` with a fresh
list (`+`), and then each option processes the clone — modelled, per that
source comment and the spec's copy-on-write contract, as writing a
(key, value) pair into the clone's own `_attributes` copy. -/
def Query.options (h : Heap) (q : Query) (opts : List (String × PyVal)) : Except Err (Heap × Query) :=
  let q := q.clone
  let copied := h.dictAt q.attributesRef
  let newRef := h.dicts.length
  let h := { h with dicts := h.dicts ++ [copied] }
  let q := { q with attributesRef := newRef,
                    withOptions := q.withOptions ++ opts.map Prod.fst }
  let h := opts.foldl (fun hh o => hh.writeDict newRef (assocSet (hh.dictAt newRef) o.1 o.2)) h
  .ok (h, q)

/-- `Query.with_lockmode` (lines 601-605). -/
def Query.with_lockmode (h : Heap) (q : Query) (mode : String) : Except Err (Heap × Query) :=
  let q := q.clone
  .ok (h, { q with lockmode := some mode })

/-- `Query.from_statement` (lines 1014-1030), wrapped by
`_generative(__no_criterion_condition)`. -/
def Query.from_statement (h : Heap) (q : Query) (statement : Clause) : Except Err (Heap × Query) :=
  match noCriterionCondition q.clone with
  | .error e => .error e
  | .ok q => .ok (h, { q with statement := some statement })

/-- `Query.__join` (lines 795-922), restricted to its state effects: the
clone replaces `self.__currenttables` with a fresh copy of the shared set
(line 796) and `self._polymorphic_adapters` with a copy of the shared dict
(line 797), resets the joinpoint, adds the joined tables to its own fresh
set (lines 902-904), and finally writes `_from_obj` and `_joinpoint`
(lines 919-920).  Resolving the property path into the concrete join is
external mapper machinery; the tables the path adds and the resulting join
clause are taken as arguments. -/
def Query.join (h : Heap) (q : Query) (newTables : List Nat) (joined : Clause)
    (rightEntity : Nat) : Except Err (Heap × Query) :=
  let q := q.clone
  match noStatementCondition q with
  | .error e => .error e
  | .ok _ =>
  match noLimitOffset q with
  | .error e => .error e
  | .ok _ =>
  let ctCopy := h.tsetAt q.currenttablesRef
  let paCopy := h.dictAt q.polyAdaptersRef
  let newSetRef := h.tsets.length
  let newDictRef := h.dicts.length
  let h := { dicts := h.dicts ++ [paCopy], tsets := h.tsets ++ [ctCopy ++ newTables] }
  .ok (h, { q with currenttablesRef := newSetRef, polyAdaptersRef := newDictRef,
                   fromObj := some joined, joinpoint := some rightEntity })

/-- `Query.slice` (lines 967-977), `_generative(__no_statement_condition)`. -/
def Query.slice (h : Heap) (q : Query) (start stop : Option Nat) : Except Err (Heap × Query) :=
  let q := q.clone
  match noStatementCondition q with
  | .error e => .error e
  | .ok _ =>
  match start, stop with
  | some s, some e =>
      .ok (h, { q with offset := some (q.offset.getD 0 + s), limit := some (e - s) })
  | Option.none, some e => .ok (h, { q with limit := some e })
  | some s, Option.none => .ok (h, { q with offset := some (q.offset.getD 0 + s) })
  | Option.none, Option.none => .ok (h, q)

/-- Everything of a `Query`'s state that feeds its compiled statement and
execution (`_compile_context` / `__iter__`), with the shared heap objects
dereferenced: the observable a caller of `q.statement` sees. -/
structure CompiledView where
  whereclause : Option Clause
  orderBy : Option (List Clause)
  groupBy : Option (List Clause)
  having : Option Clause
  limit : Option Nat
  offset : Option Nat
  distinct : Bool
  statement : Option Clause
  fromObj : Option Clause
  params : ObjDict
  attributes : ObjDict
  polyAdapters : ObjDict
  currenttables : List Nat
deriving Repr

def Query.compiledView (h : Heap) (q : Query) : CompiledView :=
  { whereclause := q.criterion, orderBy := q.orderBy, groupBy := q.groupBy,
    having := q.having, limit := q.limit, offset := q.offset,
    distinct := q.distinct, statement := q.statement, fromObj := q.fromObj,
    params := h.dictAt q.paramsRef, attributes := h.dictAt q.attributesRef,
    polyAdapters := h.dictAt q.polyAdaptersRef,
    currenttables := h.tsetAt q.currenttablesRef }

/-! Section: Query.one (lines 1047-1070)

Rows materialized from the database are opaque; a run of the query against
the list of rows its criterion matches (in cursor order) applies the
accumulated OFFSET then LIMIT. -/

abbrev Row := Nat

def Query.runRows (q : Query) (matching : List Row) : List Row :=
  let afterOffset := matching.drop (q.offset.getD 0)
  match q.limit with
  | some l => afterOffset.take l
  | Option.none => afterOffset

/-- The rows `list(self[0:2])` materializes inside `one()`:
`__getitem__` with slice `[0:2]` (lines 952-963) calls `self.slice(0, 2)`
and lists the result. -/
def Query.oneRowsFetched (h : Heap) (q : Query) (matching : List Row) : List Row :=
  match Query.slice h q (some 0) (some 2) with
  | .error _ => []
  | .ok (_, q2) => q2.runRows matching

inductive OneResult where
  | ok (r : Row)
  | noResult
  | multipleResults
  | nameError
deriving Repr, DecidableEq

/-- `Query.one` (lines 1047-1070).  When a raw statement override is set,
the source executes `raise exceptions.InvalidRequestError(...)`; but
`exceptions` is not a name bound in orm/query.py (the module imports
`exc as sa_exc` and `orm.exc as orm_exc` only), so evaluating that raise
statement itself raises `NameError` — before any query execution.
Otherwise `ret = list(self[0:2])` fetches at most two rows and the length
of `ret` selects between the row, `NoResultFound` and
`MultipleResultsFound`. -/
def Query.one (h : Heap) (q : Query) (matching : List Row) : OneResult :=
  if q.statement.isSome then
    OneResult.nameError
  else
    match Query.oneRowsFetched h q matching with
    | [r] => OneResult.ok r
    | [] => OneResult.noResult
    | _ => OneResult.multipleResults

/-! Section: Query.update (lines 1284-1330)

Only the synchronize-session logic is modelled; the SQL UPDATE itself and
the fallback SELECT are external database effects.  `dbMatched` is the
list of primary keys the criterion matches in the database (the answer the
fallback SELECT of `primary_table.primary_key` would fetch).  A tracked
instance is its primary key plus its `__dict__`. -/

structure Session where
  identityMap : List (Nat × ObjDict)
  expired : List (Nat × List String)
  fetchCount : Nat
deriving Repr, DecidableEq

/-- View an instance `__dict__` as the attribute lookup function the
compiled evaluators consume (`operator.attrgetter`). -/
def dictObj (d : ObjDict) : Obj := fun k => dictGetNone d k

/-- The compilation the `try` block of `update()` performs under
`synchronize_session='evaluate'` (lines 1297-1304): compile the WHERE
clause, then compile every value expression
(`expression._literal_as_binds` is the identity on the clause expressions
modelled here). -/
def compileUpdate (whereclause : Clause) (values : List (String × Clause)) :
    Except EvalErr ((Obj → PyVal) × List (String × (Obj → PyVal))) := do
  let eval_condition ← process whereclause
  let value_evaluators ← values.mapM (fun kv => do
    let e ← process kv.2
    pure (kv.1, e))
  pure (eval_condition, value_evaluators)

/-- Apply the compiled value evaluators to one matching instance
(lines 1321-1322): each key is written into `obj.__dict__` in turn, so a
later evaluator sees the earlier writes. -/
def applyValueEvaluators (ves : List (String × (Obj → PyVal))) (d : ObjDict) : ObjDict :=
  ves.foldl (fun acc ke => assocSet acc ke.1 (ke.2 (dictObj acc))) d

/-- `Query.update` (lines 1284-1330) with `synchronize_session='evaluate'`.
Only `UnevaluatableError` is caught by the `except` clause (line 1305);
catching it downgrades the mode to `'expire'`, which fetches the matched
primary keys (one SELECT, line 1311-1312) and, after the UPDATE executes,
expires the updated attribute keys of every tracked matched instance
(lines 1324-1330).  In `'evaluate'` mode no SELECT is issued and every
tracked instance satisfying the compiled predicate has its in-memory
attributes overwritten (lines 1316-1322; the single-class case is
modelled, so the `issubclass` test always passes). -/
def Query.update (whereclause : Clause) (values : List (String × Clause))
    (sess : Session) (dbMatched : List Nat) : Except EvalErr Session :=
  match compileUpdate whereclause values with
  | .ok (eval_condition, value_evaluators) =>
      .ok { sess with identityMap := sess.identityMap.map (fun pkobj =>
        if (eval_condition (dictObj pkobj.2)).truthy then
          (pkobj.1, applyValueEvaluators value_evaluators pkobj.2)
        else pkobj) }
  | .error (.unevaluatable _) =>
      .ok { sess with
        fetchCount := sess.fetchCount + 1,
        expired := sess.expired ++ dbMatched.filterMap (fun pk =>
          if (sess.identityMap.lookup pk).isSome then
            some (pk, values.map Prod.fst)
          else Option.none) }
  | .error e => .error e

/-! Section: Grouped deferred columns (orm/strategies.py lines 38-104)

`DeferredColumnLoader.setup_loader` builds the `lazyload` closure that a
`CallableProp` installed for the deferred attribute invokes on first read.
With a deferral group, the closure issues ONE select of every column in
the group keyed by the primary key (lines 86-100), installs each sibling
column's value directly into the instance dict with a clean tracker, and
returns its own column's value, which `CallableProp.getattr` then installs
(attributes.py lines 167-175).  The SELECT itself is external: `row` maps
each group column key to the value the single fetched row carries. -/

inductive DefEntry where
  | deferredSlot
  | tracker
deriving Repr, DecidableEq

structure DefInstance where
  dict : ObjDict
  attrs : List (String × DefEntry)
deriving Repr, DecidableEq

/-- Modelled from the spec: `sessionlib.attribute_manager.init_instance_attribute`
is not under src/; per the spec's loader-strategy contract, installing
clean load data registers a plain (clean) tracker for the attribute and
bypasses tracker events.  The direct dict write is strategies.py line 97
(`instance.__dict__[prop.key] = row[prop.columns[0]]`). -/
def installSibling (i : DefInstance) (k : String) (v : PyVal) : DefInstance :=
  { dict := assocSet i.dict k v, attrs := assocSet i.attrs k DefEntry.tracker }

/-- One read access of deferred attribute `key` belonging to the deferral
group `groupKeys`, routed through `AttributeManager.get_attribute`: a
`deferredSlot` entry is a `CallableProp` whose callable is the grouped
`lazyload` closure; a `tracker` entry is a plain `PropHistory`.  Returns
(result, new instance state, number of SELECTs issued). -/
def deferredGroupAccess (groupKeys : List String) (row : String → PyVal)
    (inst : DefInstance) (key : String) : Except String PyVal × DefInstance × Nat :=
  match inst.attrs.lookup key with
  | some DefEntry.deferredSlot =>
      if dictGetNone inst.dict key = PyVal.none then
        let inst1 := groupKeys.foldl
          (fun i k => if k = key then i else installSibling i k (row k)) inst
        let value := row key
        let inst2 : DefInstance :=
          { dict := assocSet inst1.dict key value,
            attrs := assocSet inst1.attrs key DefEntry.tracker }
        (.ok value, inst2, 1)
      else
        let inst2 : DefInstance := { inst with attrs := assocSet inst.attrs key DefEntry.tracker }
        (.ok (dictGetNone inst.dict key), inst2, 0)
  | some DefEntry.tracker =>
      match inst.dict.lookup key with
      | some v => (.ok v, inst, 0)
      | Option.none => (.error ("AttributeError"), inst, 0)
  | Option.none =>
      match inst.dict.lookup key with
      | some v => (.ok v, { inst with attrs := assocSet inst.attrs key DefEntry.tracker }, 0)
      | Option.none =>
          (.error ("AttributeError"),
           { inst with attrs := assocSet inst.attrs key DefEntry.tracker }, 0)

/-- The builder state `Query.__init__` establishes (lines 61-92): no
criterion, `_order_by = _group_by = False`, no limit/offset/statement,
fresh empty `_params`, `_attributes` and `_polymorphic_adapters` dicts and
an empty `__currenttables` set, laid out in `Heap.init` below. -/
def Query.init : Query :=
  { criterion := Option.none, orderBy := Option.none, groupBy := Option.none,
    having := Option.none, limit := Option.none, offset := Option.none,
    distinct := false, statement := Option.none, lockmode := Option.none,
    fromObj := Option.none, joinpoint := Option.none, withOptions := [],
    filterAliases := Option.none, paramsRef := 0, attributesRef := 1,
    polyAdaptersRef := 2, currenttablesRef := 0 }

/-- The heap holding `Query.init`'s three fresh dicts and one fresh set. -/
def Heap.init : Heap := { dicts := [[], [], []], tsets := [[]] }

/-! Section: Theorems -/

/-- Helper: appending to the dict store leaves every existing dict
dereference unchanged. -/
theorem Heap.dictAt_append (h : Heap) (ts : List (List Nat)) (d : ObjDict) (r : Nat)
    (hr : r < h.dicts.length) :
    Heap.dictAt { dicts := h.dicts ++ [d], tsets := ts } r = h.dictAt r := by
  simp [Heap.dictAt, List.getElem?_append_left hr]

/-- Helper: an in-place write to one dict object leaves every other dict
dereference unchanged. -/
theorem Heap.dictAt_writeDict_ne (h : Heap) (r0 r : Nat) (d : ObjDict) (hne : r ≠ r0) :
    Heap.dictAt (h.writeDict r0 d) r = h.dictAt r := by
  simp [Heap.dictAt, Heap.writeDict, List.getElem?_set_ne (Ne.symm hne)]

/-- C1 counterexample.  The claim says a second `set` before the next
commit or rollback leaves `original` unchanged; but on a clean tracker
holding 0, `set(1)` captures orig = 0 and the subsequent `set(2)` then
overwrites orig with 1 — `PropHistory.setattr` has no `orig is NONE`
guard, so the pre-change value is re-captured on every set. -/
theorem setattr_second_set_overwrites_orig :
    PropHistory.setattr { dictVal := some (PyVal.int 0), orig := Option.none } (PyVal.int 1)
      = .ok { dictVal := some (PyVal.int 1), orig := some (PyVal.int 0) }
  ∧ PropHistory.setattr { dictVal := some (PyVal.int 1), orig := some (PyVal.int 0) } (PyVal.int 2)
      = .ok { dictVal := some (PyVal.int 2), orig := some (PyVal.int 1) }
  ∧ (some (PyVal.int 1) : Option PyVal) ≠ some (PyVal.int 0) :=
  ⟨rfl, rfl, by decide⟩

/-- C1 amended: every non-list `set(value)` — not only the first after a
commit — stores the value the dict held immediately before that set
(`__dict__.get(key, None)`) into `original`, and stores the new value; so
after a first set `original` holds the pre-change value, and each
subsequent set re-captures `original` as the previously-set value. -/
theorem setattr_captures_orig_on_every_set (h : PropHistory) (v : PyVal)
    (hv : v.isList = false) :
    PropHistory.setattr h v
      = .ok { dictVal := some v, orig := some (h.dictVal.getD PyVal.none) } := by
  simp [PropHistory.setattr, hv]

theorem setattr_captures_orig_on_every_set_witness :
    (PyVal.int 2).isList = false
  ∧ PropHistory.setattr { dictVal := some (PyVal.int 1), orig := some (PyVal.int 0) } (PyVal.int 2)
      = .ok { dictVal := some (PyVal.int 2), orig := some (PyVal.int 1) } :=
  ⟨by decide, setattr_captures_orig_on_every_set _ _ rfl⟩

/-- C2: on a tracker whose dict slot holds `u`, a successful `set(v)`
followed by `rollback()` restores the dict slot to exactly `u` and resets
`orig` to the NONE sentinel, and a second `rollback()` with no intervening
set changes nothing. -/
theorem rollback_after_set_restores (h : PropHistory) (u v : PyVal) (h1 : PropHistory)
    (hd : h.dictVal = some u) (hset : h.setattr v = .ok h1) :
    h1.rollback.dictVal = some u
  ∧ h1.rollback.orig = Option.none
  ∧ h1.rollback.rollback = h1.rollback := by
  rw [PropHistory.setattr] at hset
  split at hset
  · cases hset
  · cases hset
    simp [PropHistory.rollback, hd]

theorem rollback_after_set_restores_witness :
    ({ dictVal := some (PyVal.int 5), orig := Option.none } : PropHistory).dictVal
      = some (PyVal.int 5)
  ∧ PropHistory.setattr { dictVal := some (PyVal.int 5), orig := Option.none } (PyVal.int 7)
      = .ok { dictVal := some (PyVal.int 7), orig := some (PyVal.int 5) }
  ∧ ({ dictVal := some (PyVal.int 7), orig := some (PyVal.int 5) } : PropHistory).rollback.dictVal
      = some (PyVal.int 5) :=
  ⟨rfl, rfl,
   (rollback_after_set_restores { dictVal := some (PyVal.int 5), orig := Option.none }
      (PyVal.int 5) (PyVal.int 7) _ rfl rfl).1⟩

/-- C3: a scalar lazy slot (CallableProp) whose callable returns `r`, read
through `AttributeManager.get_attribute` on an instance with no stored
value: the first read invokes the callable exactly once, installs `r` in
the instance dict, replaces the slot with a fresh clean `PropHistory`
(the slot is detached), and the second read returns the installed value
with zero further invocations — one fetch total for two reads. -/
theorem lazy_slot_resolves_once (r : PyVal) :
    getAttribute { dictVal := Option.none, entry := some (Entry.callable r) }
      = (.ok r, { dictVal := some r, entry := some (Entry.hist Option.none) }, 1)
  ∧ getAttribute { dictVal := some r, entry := some (Entry.hist Option.none) }
      = (.ok r, { dictVal := some r, entry := some (Entry.hist Option.none) }, 0) := by
  constructor
  · simp [getAttribute]
  · simp [getAttribute]

/-- Helper: bind on an ok Except reduces. -/
theorem exceptBind_ok {ε α β : Type} (a : α) (f : α → Except ε β) :
    (Except.ok a >>= f) = f a := rfl

/-- C8: for a binary expression with compilable operands, the IS operator
(`is_`) makes `EvaluatorCompiler.process` raise `UnevaluatableError` —
its `if` is not chained to the `if isnot / elif straight-op / else raise`
that follows, so its evaluator is dead — while `isnot` and every one of
the twelve straight ops compile to working evaluators. -/
theorem is_op_always_unevaluatable (l r : Clause) (el er : Obj → PyVal)
    (hl : process l = .ok el) (hr : process r = .ok er) :
    process (Clause.binary l .is_ r)
      = .error (.unevaluatable ("Cannot evaluate BinaryExpression"))
  ∧ (∃ f, process (Clause.binary l .isnot r) = .ok f)
  ∧ (∀ op, op ∈ straightOps → ∃ f, process (Clause.binary l op r) = .ok f) := by
  refine ⟨?_, ?_, ?_⟩
  · simp [process, hl, hr, exceptBind_ok, straightOps]
  · simp [process, hl, hr, exceptBind_ok]
  · intro op hop
    fin_cases hop <;> simp [process, hl, hr, exceptBind_ok, straightOps]

theorem is_op_always_unevaluatable_witness :
    process (Clause.bindparam (PyVal.int 1)) = .ok (fun _ => PyVal.int 1)
  ∧ process Clause.nullclause = .ok (fun _ => PyVal.none)
  ∧ process (Clause.binary (Clause.bindparam (PyVal.int 1)) .is_ Clause.nullclause)
      = .error (.unevaluatable ("Cannot evaluate BinaryExpression")) :=
  ⟨by simp [process], by simp [process],
   (is_op_always_unevaluatable (Clause.bindparam (PyVal.int 1)) Clause.nullclause
      (fun _ => PyVal.int 1) (fun _ => PyVal.none)
      (by simp [process]) (by simp [process])).1⟩

/-- C9: the compiled AND evaluator returns None as soon as an operand
evaluates to None, independently of every later operand, so the operand
lists [NULL, FALSE] and [FALSE, NULL] evaluate to None and False
respectively — order-dependent, not the symmetric SQL three-valued AND
(where FALSE AND NULL = FALSE both ways). -/
theorem and_evaluator_short_circuits_on_null (e : Obj → PyVal)
    (rest : List (Obj → PyVal)) (obj : Obj) (hnull : e obj = PyVal.none) :
    evaluateAnd (e :: rest) obj = PyVal.none
  ∧ (∀ f, process (Clause.clauselist .and_
          [Clause.nullclause, Clause.bindparam (PyVal.bool false)]) = .ok f
        → f obj = PyVal.none)
  ∧ (∀ f, process (Clause.clauselist .and_
          [Clause.bindparam (PyVal.bool false), Clause.nullclause]) = .ok f
        → f obj = PyVal.bool false) := by
  refine ⟨?_, ?_, ?_⟩
  · simp [evaluateAnd, hnull, PyVal.truthy]
  · intro f hf
    simp [process, processList, exceptBind_ok] at hf
    subst hf
    simp [evaluateAnd, PyVal.truthy]
  · intro f hf
    simp [process, processList, exceptBind_ok] at hf
    subst hf
    simp [evaluateAnd, PyVal.truthy]

theorem and_evaluator_short_circuits_on_null_witness :
    (fun (_ : String) => PyVal.none) "x" = PyVal.none
  ∧ evaluateAnd [fun _ => PyVal.none, fun _ => PyVal.bool true]
      (fun _ => PyVal.none) = PyVal.none :=
  ⟨rfl,
   (and_evaluator_short_circuits_on_null (fun _ => PyVal.none)
      [fun _ => PyVal.bool true] (fun _ => PyVal.none) rfl).1⟩

/-- C5: on a Query with no raw-statement override (and no offset already
applied, so that `db`, the criterion-matching rows in cursor order, is
what the statement would yield), `one()` materializes `list(self[0:2])` —
at most two rows — and branches on the count: zero rows raise
`NoResultFound`, two or more raise `MultipleResultsFound`, exactly one
returns that row's object.  `slice(0, 2)` overwrites any prior `_limit`
with 2, exactly as source line 972 does. -/
theorem one_fetches_two_and_branches (h : Heap) (q : Query) (db : List Row)
    (hs : q.statement = Option.none) (ho : q.offset = Option.none) :
    Query.oneRowsFetched h q db = db.take 2
  ∧ (Query.oneRowsFetched h q db).length ≤ 2
  ∧ (db = [] → Query.one h q db = OneResult.noResult)
  ∧ (∀ r, db = [r] → Query.one h q db = OneResult.ok r)
  ∧ (2 ≤ db.length → Query.one h q db = OneResult.multipleResults) := by
  have hslice : Query.slice h q (some 0) (some 2)
      = .ok (h, { q with offset := some 0, limit := some 2 }) := by
    simp [Query.slice, Query.clone, noStatementCondition, hs, ho]
  have hfetched : Query.oneRowsFetched h q db = db.take 2 := by
    simp [Query.oneRowsFetched, hslice, Query.runRows]
  refine ⟨hfetched, ?_, ?_, ?_, ?_⟩
  · rw [hfetched]; simp [List.length_take]
  · intro hdb; subst hdb
    simp [Query.one, hs, hfetched]
  · intro r hdb; subst hdb
    simp [Query.one, hs, hfetched]
  · intro hlen
    rcases db with _ | ⟨a, _ | ⟨b, rest⟩⟩
    · simp at hlen
    · simp at hlen
    · simp [Query.one, hs, hfetched]

theorem one_fetches_two_and_branches_witness :
    Query.init.statement = Option.none
  ∧ Query.init.offset = Option.none
  ∧ Query.one Heap.init Query.init [5] = OneResult.ok 5
  ∧ Query.one Heap.init Query.init [] = OneResult.noResult
  ∧ Query.one Heap.init Query.init [5, 6, 7] = OneResult.multipleResults :=
  ⟨rfl, rfl,
   (one_fetches_two_and_branches Heap.init Query.init [5] rfl rfl).2.2.2.1 5 rfl,
   (one_fetches_two_and_branches Heap.init Query.init [] rfl rfl).2.2.1 rfl,
   (one_fetches_two_and_branches Heap.init Query.init [5, 6, 7] rfl rfl).2.2.2.2 (by decide)⟩

/-- C10: on a Query with a raw-statement override, `one()` never returns a
result and never raises either cardinality error: the `if self._statement`
branch evaluates `exceptions.InvalidRequestError`, but `exceptions` is an
unbound name in orm/query.py, so a `NameError` is raised before any query
execution — the outcome is the same for every database content. -/
theorem one_with_statement_raises_nameerror (h : Heap) (q : Query) (db : List Row)
    (st : Clause) (hs : q.statement = some st) :
    Query.one h q db = OneResult.nameError
  ∧ (∀ r, Query.one h q db ≠ OneResult.ok r)
  ∧ Query.one h q db ≠ OneResult.noResult
  ∧ Query.one h q db ≠ OneResult.multipleResults
  ∧ (∀ db2, Query.one h q db2 = Query.one h q db) := by
  refine ⟨?_, ?_, ?_, ?_, ?_⟩ <;> simp [Query.one, hs]

theorem one_with_statement_raises_nameerror_witness :
    ({ Query.init with statement := some Clause.nullclause } : Query).statement
      = some Clause.nullclause
  ∧ Query.one Heap.init { Query.init with statement := some Clause.nullclause } [5]
      = OneResult.nameError :=
  ⟨rfl,
   (one_with_statement_raises_nameerror Heap.init
      { Query.init with statement := some Clause.nullclause } [5]
      Clause.nullclause rfl).1⟩

theorem Heap.tsetAt_append (h : Heap) (ds : List ObjDict) (t : List Nat) (r : Nat)
    (hr : r < h.tsets.length) :
    Heap.tsetAt { dicts := ds, tsets := h.tsets ++ [t] } r = h.tsetAt r := by
  simp [Heap.tsetAt, List.getElem?_append_left hr]

theorem Heap.tsets_foldWrite (opts : List (String × PyVal)) (h : Heap) (nr : Nat) :
    (opts.foldl (fun hh o => hh.writeDict nr (assocSet (hh.dictAt nr) o.1 o.2)) h).tsets
      = h.tsets := by
  induction opts generalizing h with
  | nil => rfl
  | cons o rest ih => rw [List.foldl_cons, ih]; rfl

theorem Heap.dictAt_foldWrite (opts : List (String × PyVal)) (h : Heap) (nr r : Nat)
    (hne : r ≠ nr) :
    Heap.dictAt (opts.foldl (fun hh o => hh.writeDict nr (assocSet (hh.dictAt nr) o.1 o.2)) h) r
      = h.dictAt r := by
  induction opts generalizing h with
  | nil => rfl
  | cons o rest ih =>
      rw [List.foldl_cons, ih]
      exact Heap.dictAt_writeDict_ne _ _ _ _ hne

/-- C4: every generative builder call runs on a `_clone` of the Query and
either leaves the shared heap objects untouched or copies them before
writing (`params` copies `_params`; `options` copies `_attributes`;
`__join` copies `__currenttables` and `_polymorphic_adapters`), so after
any successful chained call the original Query's compiled-statement view —
criterion, order/group/having, limit/offset/distinct, statement override,
and the dereferenced shared dicts and set — is exactly what it was
before the call. -/
theorem generative_calls_preserve_original (h : Heap) (q : Query)
    (hp : q.paramsRef < h.dicts.length) (ha : q.attributesRef < h.dicts.length)
    (hpa : q.polyAdaptersRef < h.dicts.length) (hct : q.currenttablesRef < h.tsets.length) :
    (∀ c h2 q2, Query.filter h q c = .ok (h2, q2) →
        Query.compiledView h2 q = Query.compiledView h q)
  ∧ (∀ cs h2 q2, Query.order_by h q cs = .ok (h2, q2) →
        Query.compiledView h2 q = Query.compiledView h q)
  ∧ (∀ cs h2 q2, Query.group_by h q cs = .ok (h2, q2) →
        Query.compiledView h2 q = Query.compiledView h q)
  ∧ (∀ c h2 q2, Query.having_ h q c = .ok (h2, q2) →
        Query.compiledView h2 q = Query.compiledView h q)
  ∧ (∀ n h2 q2, Query.limit_ h q n = .ok (h2, q2) →
        Query.compiledView h2 q = Query.compiledView h q)
  ∧ (∀ n h2 q2, Query.offset_ h q n = .ok (h2, q2) →
        Query.compiledView h2 q = Query.compiledView h q)
  ∧ (∀ h2 q2, Query.distinct_ h q = .ok (h2, q2) →
        Query.compiledView h2 q = Query.compiledView h q)
  ∧ (∀ kw h2 q2, Query.params h q kw = .ok (h2, q2) →
        Query.compiledView h2 q = Query.compiledView h q)
  ∧ (∀ opts h2 q2, Query.options h q opts = .ok (h2, q2) →
        Query.compiledView h2 q = Query.compiledView h q)
  ∧ (∀ m h2 q2, Query.with_lockmode h q m = .ok (h2, q2) →
        Query.compiledView h2 q = Query.compiledView h q)
  ∧ (∀ st h2 q2, Query.from_statement h q st = .ok (h2, q2) →
        Query.compiledView h2 q = Query.compiledView h q)
  ∧ (∀ ts j re h2 q2, Query.join h q ts j re = .ok (h2, q2) →
        Query.compiledView h2 q = Query.compiledView h q)
  ∧ (∀ s e h2 q2, Query.slice h q s e = .ok (h2, q2) →
        Query.compiledView h2 q = Query.compiledView h q) := by
  have hne1 : q.paramsRef ≠ h.dicts.length := Nat.ne_of_lt hp
  have hne2 : q.attributesRef ≠ h.dicts.length := Nat.ne_of_lt ha
  have hne3 : q.polyAdaptersRef ≠ h.dicts.length := Nat.ne_of_lt hpa
  refine ⟨?_, ?_, ?_, ?_, ?_, ?_, ?_, ?_, ?_, ?_, ?_, ?_, ?_⟩
  · intro c h2 q2 hcall
    simp only [Query.filter, Query.clone] at hcall
    repeat' split at hcall
    all_goals simp at hcall
    all_goals obtain ⟨hh, hq⟩ := hcall
    all_goals subst hh
    all_goals rfl
  · intro cs h2 q2 hcall
    simp only [Query.order_by, Query.clone] at hcall
    repeat' split at hcall
    all_goals simp at hcall
    all_goals obtain ⟨hh, hq⟩ := hcall
    all_goals subst hh
    all_goals rfl
  · intro cs h2 q2 hcall
    simp only [Query.group_by, Query.clone] at hcall
    repeat' split at hcall
    all_goals simp at hcall
    all_goals obtain ⟨hh, hq⟩ := hcall
    all_goals subst hh
    all_goals rfl
  · intro c h2 q2 hcall
    simp only [Query.having_, Query.clone] at hcall
    repeat' split at hcall
    all_goals simp at hcall
    all_goals obtain ⟨hh, hq⟩ := hcall
    all_goals subst hh
    all_goals rfl
  · intro n h2 q2 hcall
    simp only [Query.limit_, Query.clone] at hcall
    repeat' split at hcall
    all_goals simp at hcall
    all_goals obtain ⟨hh, hq⟩ := hcall
    all_goals subst hh
    all_goals rfl
  · intro n h2 q2 hcall
    simp only [Query.offset_, Query.clone] at hcall
    repeat' split at hcall
    all_goals simp at hcall
    all_goals obtain ⟨hh, hq⟩ := hcall
    all_goals subst hh
    all_goals rfl
  · intro h2 q2 hcall
    simp only [Query.distinct_, Query.clone] at hcall
    repeat' split at hcall
    all_goals simp at hcall
    all_goals obtain ⟨hh, hq⟩ := hcall
    all_goals subst hh
    all_goals rfl
  · intro kw h2 q2 hcall
    simp only [Query.params, Query.clone] at hcall
    simp at hcall
    obtain ⟨hh, hq⟩ := hcall
    subst hh
    simp [Query.compiledView, Heap.tsetAt,
          Heap.dictAt_append h h.tsets _ _ hp,
          Heap.dictAt_append h h.tsets _ _ ha,
          Heap.dictAt_append h h.tsets _ _ hpa]
  · intro opts h2 q2 hcall
    simp only [Query.options, Query.clone] at hcall
    simp at hcall
    obtain ⟨hh, hq⟩ := hcall
    subst hh
    simp [Query.compiledView,
          Heap.dictAt_foldWrite _ _ _ _ hne1,
          Heap.dictAt_foldWrite _ _ _ _ hne2,
          Heap.dictAt_foldWrite _ _ _ _ hne3,
          Heap.dictAt_append h h.tsets _ _ hp,
          Heap.dictAt_append h h.tsets _ _ ha,
          Heap.dictAt_append h h.tsets _ _ hpa,
          Heap.tsetAt, Heap.tsets_foldWrite]
  · intro m h2 q2 hcall
    simp only [Query.with_lockmode, Query.clone] at hcall
    simp at hcall
    obtain ⟨hh, hq⟩ := hcall
    subst hh
    rfl
  · intro st h2 q2 hcall
    simp only [Query.from_statement, Query.clone, noCriterionCondition] at hcall
    repeat' split at hcall
    all_goals simp at hcall
    all_goals obtain ⟨hh, hq⟩ := hcall
    all_goals subst hh
    all_goals rfl
  · intro ts j re h2 q2 hcall
    simp only [Query.join, Query.clone] at hcall
    repeat' split at hcall
    all_goals simp at hcall
    all_goals obtain ⟨hh, hq⟩ := hcall
    all_goals subst hh
    all_goals
      simp [Query.compiledView,
            Heap.dictAt_append h _ _ _ hp,
            Heap.dictAt_append h _ _ _ ha,
            Heap.dictAt_append h _ _ _ hpa,
            Heap.tsetAt_append h _ _ _ hct]
  · intro s e h2 q2 hcall
    simp only [Query.slice, Query.clone] at hcall
    repeat' split at hcall
    all_goals simp at hcall
    all_goals obtain ⟨hh, hq⟩ := hcall
    all_goals subst hh
    all_goals rfl

theorem generative_calls_preserve_original_witness :
    Query.init.paramsRef < Heap.init.dicts.length
  ∧ Query.init.attributesRef < Heap.init.dicts.length
  ∧ Query.init.polyAdaptersRef < Heap.init.dicts.length
  ∧ Query.init.currenttablesRef < Heap.init.tsets.length
  ∧ Query.compiledView { dicts := [[], [], [], [("x", PyVal.int 1)]], tsets := [[]] } Query.init
      = Query.compiledView Heap.init Query.init :=
  ⟨by decide, by decide, by decide, by decide,
   (generative_calls_preserve_original Heap.init Query.init
      (by decide) (by decide) (by decide) (by decide)).2.2.2.2.2.2.2.1
     [("x", PyVal.int 1)] _ _ rfl⟩

theorem exceptBind_error {ε α β : Type} (e : ε) (f : α → Except ε β) :
    ((Except.error e : Except ε α) >>= f) = Except.error e := rfl

/-- C7: `update()` with `synchronize_session='evaluate'`.  When the WHERE
clause and every value expression compile, the result is the evaluate
path: every tracked instance satisfying the predicate has its in-memory
dict overwritten by the value evaluators, and — visible in the `with`
record — `fetchCount` and `expired` are untouched: no re-fetch, no
expiration.  When compilation raises `UnevaluatableError`, the error is
caught (the call still returns ok), one SELECT re-fetches the matched
primary keys, the in-memory dicts are untouched, and the updated attribute
keys of every tracked matched instance are expired. -/
theorem update_evaluates_or_expires (wc : Clause) (values : List (String × Clause))
    (sess : Session) (dbMatched : List Nat) :
    (∀ ec ves, compileUpdate wc values = .ok (ec, ves) →
        Query.update wc values sess dbMatched
          = .ok { sess with identityMap := sess.identityMap.map (fun pkobj =>
              if (ec (dictObj pkobj.2)).truthy then
                (pkobj.1, applyValueEvaluators ves pkobj.2)
              else pkobj) })
  ∧ (∀ msg, compileUpdate wc values = .error (.unevaluatable msg) →
        Query.update wc values sess dbMatched
          = .ok { sess with
              fetchCount := sess.fetchCount + 1,
              expired := sess.expired ++ dbMatched.filterMap (fun pk =>
                if (sess.identityMap.lookup pk).isSome then
                  some (pk, values.map Prod.fst)
                else Option.none) }) := by
  constructor
  · intro ec ves hcomp
    simp [Query.update, hcomp]
  · intro msg hcomp
    simp [Query.update, hcomp]

theorem update_evaluates_or_expires_witness :
    (∃ s, Query.update (Clause.binary (Clause.column ("x")) .eq (Clause.bindparam (PyVal.int 1)))
        [("y", Clause.bindparam (PyVal.int 2))]
        { identityMap := [(1, [("x", PyVal.int 1), ("y", PyVal.int 0)])], expired := [], fetchCount := 0 }
        [1]
        = .ok s ∧ s.fetchCount = 0 ∧ s.expired = [])
  ∧ (∃ s, Query.update (Clause.binary (Clause.column ("x")) .is_ Clause.nullclause)
        [("y", Clause.bindparam (PyVal.int 2))]
        { identityMap := [(1, [("x", PyVal.int 1), ("y", PyVal.int 0)])], expired := [], fetchCount := 0 }
        [1]
        = .ok s ∧ s.fetchCount = 1 ∧ s.expired = [(1, ["y"])]) := by
  constructor
  · rcases hc : compileUpdate (Clause.binary (Clause.column ("x")) .eq (Clause.bindparam (PyVal.int 1)))
        [("y", Clause.bindparam (PyVal.int 2))] with e | ⟨ec, ves⟩
    · exfalso
      simp [compileUpdate, process, processList, exceptBind_ok, exceptBind_error, straightOps, List.mapM, List.mapM.loop, Except.map] at hc
    · exact ⟨_, (update_evaluates_or_expires _ _ _ _).1 ec ves hc, rfl, rfl⟩
  · rcases hc : compileUpdate (Clause.binary (Clause.column ("x")) .is_ Clause.nullclause)
        [("y", Clause.bindparam (PyVal.int 2))] with e | ⟨ec, ves⟩
    · cases e with
      | unevaluatable msg =>
          exact ⟨_, (update_evaluates_or_expires _ _ _ _).2 msg hc, rfl, rfl⟩
      | nameError msg =>
          exfalso
          simp [compileUpdate, process, processList, exceptBind_ok, exceptBind_error, straightOps, List.mapM, List.mapM.loop, Except.map] at hc
    · exfalso
      simp [compileUpdate, process, processList, exceptBind_ok, exceptBind_error, straightOps, List.mapM, List.mapM.loop, Except.map] at hc

/-- C6: two deferred columns k1 and k2 sharing a deferral group, both
installed as lazy slots on an instance with no loaded values: accessing
k1 first costs exactly one grouped SELECT, installs both columns' values
in the instance dict with clean trackers, and the subsequent access of k2
costs zero further SELECTs and returns the value the one grouped fetch
installed — one fetch total, not two. -/
theorem deferred_group_single_fetch (k1 k2 : String) (row : String → PyVal)
    (hne : k1 ≠ k2) :
    ∃ inst1,
      deferredGroupAccess [k1, k2] row
        { dict := [], attrs := [(k1, DefEntry.deferredSlot), (k2, DefEntry.deferredSlot)] } k1
        = (.ok (row k1), inst1, 1)
      ∧ (deferredGroupAccess [k1, k2] row inst1 k2).1 = .ok (row k2)
      ∧ (deferredGroupAccess [k1, k2] row inst1 k2).2.2 = 0 := by
  have hne2 : k2 ≠ k1 := Ne.symm hne
  have hb12 : (k1 == k2) = false := beq_eq_false_iff_ne.mpr hne
  have hb21 : (k2 == k1) = false := beq_eq_false_iff_ne.mpr hne2
  refine ⟨{ dict := [(k2, row k2), (k1, row k1)],
            attrs := [(k1, DefEntry.tracker), (k2, DefEntry.tracker)] }, ?_, ?_, ?_⟩
  · simp [deferredGroupAccess, dictGetNone, installSibling, assocSet, List.lookup, hne, hne2, hb12, hb21]
  · simp [deferredGroupAccess, dictGetNone, List.lookup, hne, hne2, hb12, hb21]
  · simp [deferredGroupAccess, dictGetNone, List.lookup, hne, hne2, hb12, hb21]

theorem deferred_group_single_fetch_witness :
    "a" ≠ "b"
  ∧ (∃ inst1,
      deferredGroupAccess ["a", "b"] (fun _ => PyVal.int 7)
        { dict := [], attrs := [("a", DefEntry.deferredSlot), ("b", DefEntry.deferredSlot)] } "a"
        = (.ok (PyVal.int 7), inst1, 1)
      ∧ (deferredGroupAccess ["a", "b"] (fun _ => PyVal.int 7) inst1 ("b")).1 = .ok (PyVal.int 7)
      ∧ (deferredGroupAccess ["a", "b"] (fun _ => PyVal.int 7) inst1 ("b")).2.2 = 0) :=
  ⟨by decide, deferred_group_single_fetch ("a") ("b") (fun _ => PyVal.int 7) (by decide)⟩
